import Mathlib

/-
Shallow embedding of the magic_image Tauri backend (src-tauri/src/main.rs and
src-tauri/src/simple_database.rs) and proofs about its specification.

Modelling choices:
* serde_json values are modelled by the inductive `Json`.  All numeric fields of
  the data model are Rust integers (i32/i64/u64), so JSON numbers are modelled
  by `Int`; `serde_json::to_string` followed by `serde_json::from_str` is the
  identity on such trees, so the TEXT blob columns are modelled as the parsed
  `Json` trees themselves.
* The SQLite table `batch_tasks` is modelled as a list of `Row`s; queries with
  `ORDER BY created_at DESC` are modelled by sorting with `List.insertionSort`
  (SQLite TEXT comparison is byte-lexicographic on UTF-8, which coincides with
  the character-lexicographic order of Lean strings).
* The download engine is modelled as a deterministic function of an "attempt
  script" (`Attempt`): for each of the three attempts the script records the
  transport outcome, the `File::create` outcome and the sequence of body
  read/write events.  Wall-clock time, download speed and the fire-and-forget
  progress events (whose results the source discards with `let _ =`) are not
  modelled; the milliseconds passed to `thread::sleep` are recorded in a trace.
-/

namespace MagicImage

/-- JSON values as handled by serde_json; numbers restricted to integers, which
covers every field of the data model. -/
inductive Json where
  | null
  | bool (b : Bool)
  | num (n : Int)
  | str (s : String)
  | arr (elems : List Json)
  | obj (fields : List (String × Json))

/-- main.rs `BatchTaskConfig` (serde rename_all = camelCase). -/
structure BatchTaskConfig where
  model : String
  model_type : String
  concurrent_limit : Int
  retry_attempts : Int
  retry_delay : Int
  auto_download : Bool
  aspect_ratio : String
  size : String
  quality : String
  generate_count : Option Int
  api_timeout_ms : Option Int

/-- main.rs `DebugLog`. -/
structure DebugLog where
  id : String
  task_item_id : String
  timestamp : String
  type : String
  data : Json
  duration : Option Int

/-- main.rs `TaskItem`. -/
structure TaskItem where
  id : String
  prompt : String
  source_image : Option String
  mask : Option String
  priority : Int
  status : String
  attempt_count : Int
  created_at : String
  processed_at : Option String
  error : Option String
  debug_logs : Option (List DebugLog)

/-- main.rs `TaskResult`. -/
structure TaskResult where
  id : String
  task_item_id : String
  image_url : String
  local_path : Option String
  downloaded : Bool
  created_at : String
  duration_ms : Option Int

/-- main.rs `BatchTask`. -/
structure BatchTask where
  id : String
  name : String
  type : String
  status : String
  progress : Int
  total_items : Int
  completed_items : Int
  failed_items : Int
  created_at : String
  started_at : Option String
  completed_at : Option String
  config : BatchTaskConfig
  items : List TaskItem
  results : List TaskResult
  error : Option String

/-! Serialization, modelling serde's derived `Serialize` with camelCase field
renaming.  `Option` fields serialize to `null` when `None`. -/

/-- serde serialization of an `Option` field. -/
def encodeOpt (f : α → Json) : Option α → Json
  | none => .null
  | some a => f a

/-- Serialization of `BatchTaskConfig`. -/
def encodeConfig (c : BatchTaskConfig) : Json :=
  .obj [("model", .str c.model), ("modelType", .str c.model_type),
        ("concurrentLimit", .num c.concurrent_limit),
        ("retryAttempts", .num c.retry_attempts),
        ("retryDelay", .num c.retry_delay),
        ("autoDownload", .bool c.auto_download),
        ("aspectRatio", .str c.aspect_ratio),
        ("size", .str c.size),
        ("quality", .str c.quality),
        ("generateCount", encodeOpt .num c.generate_count),
        ("apiTimeoutMs", encodeOpt .num c.api_timeout_ms)]

/-- Serialization of `DebugLog`; the `data` field is an arbitrary
`serde_json::Value` and is embedded unchanged. -/
def encodeLog (d : DebugLog) : Json :=
  .obj [("id", .str d.id), ("taskItemId", .str d.task_item_id),
        ("timestamp", .str d.timestamp), ("type", .str d.type),
        ("data", d.data),
        ("duration", encodeOpt .num d.duration)]

/-- Serialization of `TaskItem`. -/
def encodeItem (it : TaskItem) : Json :=
  .obj [("id", .str it.id), ("prompt", .str it.prompt),
        ("sourceImage", encodeOpt .str it.source_image),
        ("mask", encodeOpt .str it.mask),
        ("priority", .num it.priority),
        ("status", .str it.status),
        ("attemptCount", .num it.attempt_count),
        ("createdAt", .str it.created_at),
        ("processedAt", encodeOpt .str it.processed_at),
        ("error", encodeOpt .str it.error),
        ("debugLogs", encodeOpt (fun ls => .arr (ls.map encodeLog)) it.debug_logs)]

/-- Serialization of `TaskResult`. -/
def encodeResult (r : TaskResult) : Json :=
  .obj [("id", .str r.id), ("taskItemId", .str r.task_item_id),
        ("imageUrl", .str r.image_url),
        ("localPath", encodeOpt .str r.local_path),
        ("downloaded", .bool r.downloaded),
        ("createdAt", .str r.created_at),
        ("durationMs", encodeOpt .num r.duration_ms)]

/-! Deserialization, modelling serde's derived `Deserialize`: structs are read
from JSON objects by field name; a missing or `null` `Option` field is `None`;
a missing, `null` or ill-typed required field is an error. -/

/-- Field lookup in a JSON object. -/
def getField (fields : List (String × Json)) (k : String) : Option Json :=
  (fields.find? (fun p => p.1 == k)).map (fun p => p.2)

/-- Read a JSON string. -/
def asStr : Json → Option String
  | .str s => some s
  | _ => none

/-- Read a JSON integer. -/
def asNum : Json → Option Int
  | .num n => some n
  | _ => none

/-- Read a JSON boolean. -/
def asBool : Json → Option Bool
  | .bool b => some b
  | _ => none

/-- Required struct field: must be present and well-typed. -/
def reqField (fields : List (String × Json)) (k : String) (f : Json → Option α) :
    Option α :=
  (getField fields k).bind f

/-- Optional struct field: absent or `null` gives `none`; present non-null
values must be well-typed. -/
def optField (fields : List (String × Json)) (k : String) (f : Json → Option α) :
    Option (Option α) :=
  match getField fields k with
  | none => some none
  | some .null => some none
  | some v => (f v).map some

/-- serde deserialization of a `Vec`: elementwise, failing on the first bad
element. -/
def decodeList (f : Json → Option α) : List Json → Option (List α)
  | [] => some []
  | j :: js =>
    match f j with
    | none => none
    | some a =>
      match decodeList f js with
      | none => none
      | some rest => some (a :: rest)

/-- Deserialization of `BatchTaskConfig`. -/
def decodeConfig : Json → Option BatchTaskConfig
  | .obj fs => do
    let model ← reqField fs "model" asStr
    let model_type ← reqField fs "modelType" asStr
    let concurrent_limit ← reqField fs "concurrentLimit" asNum
    let retry_attempts ← reqField fs "retryAttempts" asNum
    let retry_delay ← reqField fs "retryDelay" asNum
    let auto_download ← reqField fs "autoDownload" asBool
    let aspect_ratio ← reqField fs "aspectRatio" asStr
    let size ← reqField fs "size" asStr
    let quality ← reqField fs "quality" asStr
    let generate_count ← optField fs "generateCount" asNum
    let api_timeout_ms ← optField fs "apiTimeoutMs" asNum
    some { model := model, model_type := model_type,
           concurrent_limit := concurrent_limit, retry_attempts := retry_attempts,
           retry_delay := retry_delay, auto_download := auto_download,
           aspect_ratio := aspect_ratio, size := size, quality := quality,
           generate_count := generate_count, api_timeout_ms := api_timeout_ms }
  | _ => none

/-- Deserialization of `DebugLog`. -/
def decodeLog : Json → Option DebugLog
  | .obj fs => do
    let id ← reqField fs "id" asStr
    let task_item_id ← reqField fs "taskItemId" asStr
    let timestamp ← reqField fs "timestamp" asStr
    let ty ← reqField fs "type" asStr
    let data ← getField fs "data"
    let duration ← optField fs "duration" asNum
    some { id := id, task_item_id := task_item_id, timestamp := timestamp,
           type := ty, data := data, duration := duration }
  | _ => none

/-- Deserialization of `Vec<DebugLog>`. -/
def decodeLogList : Json → Option (List DebugLog)
  | .arr xs => decodeList decodeLog xs
  | _ => none

/-- Deserialization of `TaskItem`. -/
def decodeItem : Json → Option TaskItem
  | .obj fs => do
    let id ← reqField fs "id" asStr
    let prompt ← reqField fs "prompt" asStr
    let source_image ← optField fs "sourceImage" asStr
    let mask ← optField fs "mask" asStr
    let priority ← reqField fs "priority" asNum
    let status ← reqField fs "status" asStr
    let attempt_count ← reqField fs "attemptCount" asNum
    let created_at ← reqField fs "createdAt" asStr
    let processed_at ← optField fs "processedAt" asStr
    let error ← optField fs "error" asStr
    let debug_logs ← optField fs "debugLogs" decodeLogList
    some { id := id, prompt := prompt, source_image := source_image,
           mask := mask, priority := priority, status := status,
           attempt_count := attempt_count, created_at := created_at,
           processed_at := processed_at, error := error,
           debug_logs := debug_logs }
  | _ => none

/-- Deserialization of `Vec<TaskItem>`. -/
def decodeItemList : Json → Option (List TaskItem)
  | .arr xs => decodeList decodeItem xs
  | _ => none

/-- Deserialization of `TaskResult`. -/
def decodeResult : Json → Option TaskResult
  | .obj fs => do
    let id ← reqField fs "id" asStr
    let task_item_id ← reqField fs "taskItemId" asStr
    let image_url ← reqField fs "imageUrl" asStr
    let local_path ← optField fs "localPath" asStr
    let downloaded ← reqField fs "downloaded" asBool
    let created_at ← reqField fs "createdAt" asStr
    let duration_ms ← optField fs "durationMs" asNum
    some { id := id, task_item_id := task_item_id, image_url := image_url,
           local_path := local_path, downloaded := downloaded,
           created_at := created_at, duration_ms := duration_ms }
  | _ => none

/-- Deserialization of `Vec<TaskResult>`. -/
def decodeResultList : Json → Option (List TaskResult)
  | .arr xs => decodeList decodeResult xs
  | _ => none

/-! The task store (simple_database.rs).  The `batch_tasks` table is modelled
as a list of rows; `id` is the PRIMARY KEY. -/

/-- One row of the `batch_tasks` table.  The three `*_json` TEXT columns hold
serialized blobs, modelled as parsed `Json` trees. -/
structure Row where
  id : String
  name : String
  type : String
  status : String
  progress : Int
  total_items : Int
  completed_items : Int
  failed_items : Int
  created_at : String
  started_at : Option String
  completed_at : Option String
  config_json : Json
  items_json : Json
  results_json : Json
  error_text : Option String

/-- The table contents. -/
abbrev DbState := List Row

/-- The row written by `save_batch_task`: scalar columns copied, the three
collection fields serialized independently. -/
def rowOfTask (t : BatchTask) : Row :=
  { id := t.id, name := t.name, type := t.type, status := t.status,
    progress := t.progress, total_items := t.total_items,
    completed_items := t.completed_items, failed_items := t.failed_items,
    created_at := t.created_at, started_at := t.started_at,
    completed_at := t.completed_at,
    config_json := encodeConfig t.config,
    items_json := .arr (t.items.map encodeItem),
    results_json := .arr (t.results.map encodeResult),
    error_text := t.error }

/-- simple_database.rs `save_batch_task`: `INSERT OR REPLACE` keyed on `id`
(delete any row with the same primary key, insert the new row). -/
def save_batch_task (s : DbState) (t : BatchTask) : DbState :=
  s.filter (fun r => !(r.id == t.id)) ++ [rowOfTask t]

/-- Reading one row back into a `BatchTask`: the three blobs are deserialized
independently; the first failure aborts the row with a retrieval error (the
source converts serde's error through `rusqlite::Error` into the string
`读取任务失败: {}`; the dynamic error text is abstracted to a fixed message). -/
def decodeRow (r : Row) : Except String BatchTask :=
  match decodeConfig r.config_json, decodeItemList r.items_json,
        decodeResultList r.results_json with
  | some config, some items, some results =>
    .ok { id := r.id, name := r.name, type := r.type, status := r.status,
          progress := r.progress, total_items := r.total_items,
          completed_items := r.completed_items, failed_items := r.failed_items,
          created_at := r.created_at, started_at := r.started_at,
          completed_at := r.completed_at, config := config, items := items,
          results := results, error := r.error_text }
  | _, _, _ => .error "读取任务失败: JSON deserialization error"

/-- The source's accumulation loop: rows are decoded in order and the first
row error is returned to the caller (the `?` in `tasks.push(task.map_err(..)?)`). -/
def decodeRows : List Row → Except String (List BatchTask)
  | [] => .ok []
  | r :: rs =>
    match decodeRow r with
    | .error e => .error e
    | .ok t =>
      match decodeRows rs with
      | .error e => .error e
      | .ok ts => .ok (t :: ts)

/-- The `ORDER BY created_at DESC` comparison (SQLite TEXT order). -/
def createdDesc (a b : Row) : Prop := b.created_at ≤ a.created_at

instance : DecidableRel createdDesc := fun a b =>
  inferInstanceAs (Decidable (b.created_at ≤ a.created_at))

instance : IsTotal Row createdDesc :=
  ⟨fun a b => (le_total b.created_at a.created_at).symm.symm⟩

instance : IsTrans Row createdDesc :=
  ⟨fun _ _ _ hab hbc => le_trans hbc hab⟩

/-- The rows in the order produced by `SELECT .. ORDER BY created_at DESC`. -/
def sortedRows (s : DbState) : List Row := List.insertionSort createdDesc s

/-- simple_database.rs `get_all_batch_tasks`. -/
def get_all_batch_tasks (s : DbState) : Except String (List BatchTask) :=
  decodeRows (sortedRows s)

/-- simple_database.rs `delete_batch_task`: `DELETE FROM batch_tasks WHERE id = ?`. -/
def delete_batch_task (s : DbState) (taskId : String) : DbState :=
  s.filter (fun r => !(r.id == taskId))

/-- simple_database.rs `clear_batch_tasks`: `DELETE FROM batch_tasks`. -/
def clear_batch_tasks (_s : DbState) : DbState := []

/-- simple_database.rs `get_task_count`: `SELECT COUNT(*)` as an i64. -/
def get_task_count (s : DbState) : Int := s.length

/-- simple_database.rs `cleanup_old_tasks`: select the ids beyond the first
`max_tasks_to_keep` rows in created-at-descending order (`LIMIT -1 OFFSET ?`;
a negative OFFSET behaves as 0, captured by `Int.toNat`), then, when that list
is non-empty, delete the rows whose id appears in it (the generated
`DELETE .. WHERE id IN (..)` with `''`-escaped string literals is exact id
membership).  Returns the number of ids selected and the new table state. -/
def cleanup_old_tasks (s : DbState) (maxTasksToKeep : Int) : Int × DbState :=
  let taskIds := ((sortedRows s).drop maxTasksToKeep.toNat).map (fun r => r.id)
  let count : Int := taskIds.length
  if 0 < count then
    (count, s.filter (fun r => !(taskIds.contains r.id)))
  else
    (count, s)

/-- main.rs command `cleanup_old_tasks`: `max_tasks_to_keep.unwrap_or(100)`. -/
def cleanup_old_tasks_cmd (s : DbState) (maxTasksToKeep : Option Int) :
    Int × DbState :=
  cleanup_old_tasks s (maxTasksToKeep.getD 100)

/-! The download engine (main.rs `download_file`).  Network and filesystem
behaviour are supplied as a script; the function below reproduces the source's
control flow exactly. -/

/-- One event of the body-reading loop: either `resp.read` returned `Ok(n)`
with `n > 0` bytes and the subsequent `file.write_all` either succeeded
(`writeErr = none`) or failed, or `resp.read` returned `Err`. -/
inductive BodyEv where
  | chunk (n : Nat) (writeErr : Option String)
  | readErr (msg : String)

/-- The scripted behaviour of one `client.execute(req)` that returned `Ok`:
the HTTP status code (with the canonical reason phrase used by the status
code's `Display`), the parsed Content-Length (`unwrap_or(0)`), the outcome of
`File::create(&save_path)` on this attempt, and the body events. -/
structure Resp where
  status : Nat
  reason : Option String
  contentLength : Nat
  createErr : Option String
  body : List BodyEv

/-- The scripted behaviour of one attempt: `client.execute(req)` either fails
with a transport error or yields a response. -/
structure Attempt where
  net : Except String Resp

/-- `StatusCode::is_success()`: 2xx. -/
def statusIsSuccess (code : Nat) : Bool := 200 ≤ code && code < 300

/-- `format!("HTTP {}", resp.status())`: the status code's `Display` is the
decimal code followed by the canonical reason phrase (or a placeholder). -/
def statusDisplay (resp : Resp) : String :=
  Nat.repr resp.status ++ " " ++ resp.reason.getD "<unknown status code>"

/-- Result of the inner chunk loop: `done downloaded readFail` when the loop
ended via `Ok(0)` (`readFail = none`) or via a read error that `break`s with
`last_err` set (`readFail = some msg`); `writeFail` when a `write_all` failed,
which returns from the whole function. -/
inductive BodyRes where
  | done (downloaded : Nat) (readFail : Option String)
  | writeFail (msg : String)

/-- The chunk loop of `download_file` (main.rs lines 189-216). -/
def runBody : List BodyEv → Nat → BodyRes
  | [], _dl => .done _dl none
  | .chunk n none :: rest, dl => runBody rest (dl + n)
  | .chunk _ (some e) :: _, _ => .writeFail ("写入文件失败: " ++ e)
  | .readErr m :: _, dl => .done dl (some ("读取流失败: " ++ m))

/-- The observable outcome of `download_file`: the returned `Result`, the
milliseconds passed to `thread::sleep` in order, and how many attempts were
started. -/
structure DlTrace where
  result : Except String String
  sleeps : List Nat
  attemptsMade : Nat

/-- The retry loop of `download_file` (main.rs lines 158-229): `remaining`
counts the iterations left of `for attempt in 0..3`, `i` is the current
attempt index, `lastErr` the `last_err` variable, `sleeps` the sleep log. -/
def downloadGo (env : Nat → Attempt) (savePath : String) :
    Nat → Nat → Option String → List Nat → DlTrace
  | 0, i, lastErr, sleeps =>
    { result := .error (lastErr.getD "下载失败"), sleeps := sleeps,
      attemptsMade := i }
  | remaining + 1, i, _lastErr, sleeps =>
    match (env i).net with
    | .error e =>
      downloadGo env savePath remaining (i + 1) (some ("请求失败: " ++ e))
        (sleeps ++ [300 * (i + 1)])
    | .ok resp =>
      if statusIsSuccess resp.status then
        match resp.createErr with
        | some e =>
          { result := .error ("创建文件失败: " ++ e), sleeps := sleeps,
            attemptsMade := i + 1 }
        | none =>
          match runBody resp.body 0 with
          | .writeFail msg =>
            { result := .error msg, sleeps := sleeps, attemptsMade := i + 1 }
          | .done _ _ =>
            { result := .ok savePath, sleeps := sleeps, attemptsMade := i + 1 }
      else
        downloadGo env savePath remaining (i + 1)
          (some ("HTTP " ++ statusDisplay resp)) sleeps

/-- main.rs `download_file` from the start of the retry loop, given the save
path and the attempt script. -/
def download_file (env : Nat → Attempt) (savePath : String) : DlTrace :=
  downloadGo env savePath 3 0 none []

/-- Resolution of the save directory (main.rs lines 134-140): a present,
non-empty `dir` wins; otherwise the platform download directory. -/
def resolve_save_dir (dir : Option String) (downloadDir : String) : String :=
  match dir with
  | some d => if !d.isEmpty then d else downloadDir
  | none => downloadDir

/-- `PathBuf::push` of a relative file name. -/
def pathJoin (dir filename : String) : String := dir ++ "/" ++ filename

/-- The destination path of `download_file` (main.rs lines 142-143). -/
def resolved_save_path (dir : Option String) (downloadDir filename : String) :
    String :=
  pathJoin (resolve_save_dir dir downloadDir) filename

/-! get_machine_id (main.rs lines 233-251): SHA-256 of the seed string built
from the machine snapshot, formatted as lowercase hex, truncated to 16
characters.  SHA-256 is implemented over `Nat` with explicit reduction
modulo `2 ^ 32`. -/

/-- Reduction to a 32-bit word. -/
def w32 (n : Nat) : Nat := n % 2 ^ 32

/-- Right rotation of a 32-bit word. -/
def rotr32 (k n : Nat) : Nat := w32 ((n >>> k) ||| (n <<< (32 - k)))

/-- SHA-256 `Ch`. -/
def shaCh (x y z : Nat) : Nat := (x &&& y) ^^^ ((x ^^^ (2 ^ 32 - 1)) &&& z)

/-- SHA-256 `Maj`. -/
def shaMaj (x y z : Nat) : Nat := (x &&& y) ^^^ (x &&& z) ^^^ (y &&& z)

/-- SHA-256 `Σ0`. -/
def bigSigma0 (x : Nat) : Nat := rotr32 2 x ^^^ rotr32 13 x ^^^ rotr32 22 x

/-- SHA-256 `Σ1`. -/
def bigSigma1 (x : Nat) : Nat := rotr32 6 x ^^^ rotr32 11 x ^^^ rotr32 25 x

/-- SHA-256 `σ0`. -/
def smallSigma0 (x : Nat) : Nat := rotr32 7 x ^^^ rotr32 18 x ^^^ (x >>> 3)

/-- SHA-256 `σ1`. -/
def smallSigma1 (x : Nat) : Nat := rotr32 17 x ^^^ rotr32 19 x ^^^ (x >>> 10)

/-- The SHA-256 round constants (FIPS 180-4 section 4.2.2, in decimal). -/
def shaK : List Nat :=
  [1116352408, 1899447441, 3049323471, 3921009573, 961987163, 1508970993,
   2453635748, 2870763221, 3624381080, 310598401, 607225278, 1426881987,
   1925078388, 2162078206, 2614888103, 3248222580, 3835390401, 4022224774,
   264347078, 604807628, 770255983, 1249150122, 1555081692, 1996064986,
   2554220882, 2821834349, 2952996808, 3210313671, 3336571891, 3584528711,
   113926993, 338241895, 666307205, 773529912, 1294757372, 1396182291,
   1695183700, 1986661051, 2177026350, 2456956037, 2730485921, 2820302411,
   3259730800, 3345764771, 3516065817, 3600352804, 4094571909, 275423344,
   430227734, 506948616, 659060556, 883997877, 958139571, 1322822218,
   1537002063, 1747873779, 1955562222, 2024104815, 2227730452, 2361852424,
   2428436474, 2756734187, 3204031479, 3329325298]

/-- The intermediate hash value: eight 32-bit words. -/
structure Hash8 where
  h0 : Nat
  h1 : Nat
  h2 : Nat
  h3 : Nat
  h4 : Nat
  h5 : Nat
  h6 : Nat
  h7 : Nat

/-- The SHA-256 initial hash value (FIPS 180-4 section 5.3.3, in decimal). -/
def shaH0 : Hash8 :=
  { h0 := 1779033703, h1 := 3144134277, h2 := 1013904242, h3 := 2773480762,
    h4 := 1359893119, h5 := 2600822924, h6 := 528734635, h7 := 1541459225 }

/-- Big-endian byte serialization of `n` on `k` bytes. -/
def beBytes (k n : Nat) : List Nat :=
  (List.range k).map (fun i => n / 2 ^ (8 * (k - 1 - i)) % 256)

/-- SHA-256 padding of a byte message: append `0x80`, zero bytes up to 56 mod
64, then the bit length on 8 big-endian bytes. -/
def padMessage (msg : List Nat) : List Nat :=
  msg ++ [0x80] ++ List.replicate ((119 - msg.length % 64) % 64) 0 ++
    beBytes 8 (8 * msg.length)

/-- The 16 big-endian 32-bit words of one 64-byte block. -/
def blockWords : List Nat → List Nat
  | b0 :: b1 :: b2 :: b3 :: rest =>
    (b0 * 2 ^ 24 + b1 * 2 ^ 16 + b2 * 2 ^ 8 + b3) :: blockWords rest
  | _ => []

/-- Extension of the message schedule by `k` further words. -/
def extendW (w : List Nat) : Nat → List Nat
  | 0 => w
  | k + 1 =>
    let w' := extendW w k
    w' ++ [w32 (smallSigma1 (w'.getD (w'.length - 2) 0) +
                w'.getD (w'.length - 7) 0 +
                smallSigma0 (w'.getD (w'.length - 15) 0) +
                w'.getD (w'.length - 16) 0)]

/-- One SHA-256 round on the working variables, fed one `(Kt, Wt)` pair. -/
def shaRound (st : Hash8) (kw : Nat × Nat) : Hash8 :=
  let t1 := st.h7 + bigSigma1 st.h4 + shaCh st.h4 st.h5 st.h6 + kw.1 + kw.2
  let t2 := bigSigma0 st.h0 + shaMaj st.h0 st.h1 st.h2
  { h0 := w32 (t1 + t2), h1 := st.h0, h2 := st.h1, h3 := st.h2,
    h4 := w32 (st.h3 + t1), h5 := st.h4, h6 := st.h5, h7 := st.h6 }

/-- Compression of one 64-byte block into the running hash. -/
def compressBlock (H : Hash8) (block : List Nat) : Hash8 :=
  let w := extendW (blockWords block) 48
  let st := (shaK.zip w).foldl shaRound H
  { h0 := w32 (H.h0 + st.h0), h1 := w32 (H.h1 + st.h1),
    h2 := w32 (H.h2 + st.h2), h3 := w32 (H.h3 + st.h3),
    h4 := w32 (H.h4 + st.h4), h5 := w32 (H.h5 + st.h5),
    h6 := w32 (H.h6 + st.h6), h7 := w32 (H.h7 + st.h7) }

/-- Split into 64-byte blocks; the fuel argument (any bound on the number of
blocks, each recursion consumes at least one byte) keeps the recursion
structural. -/
def toBlocks : Nat → List Nat → List (List Nat)
  | 0, _ => []
  | _fuel + 1, [] => []
  | fuel + 1, b :: bs =>
    (b :: bs).take 64 :: toBlocks fuel ((b :: bs).drop 64)

/-- SHA-256 of a byte message. -/
def sha256 (msg : List Nat) : Hash8 :=
  let padded := padMessage msg
  (toBlocks padded.length padded).foldl compressBlock shaH0

/-- The eight words of the digest, in order. -/
def hashWords (H : Hash8) : List Nat :=
  [H.h0, H.h1, H.h2, H.h3, H.h4, H.h5, H.h6, H.h7]

/-- Big-endian bytes of a 32-bit word. -/
def wordBEBytes (w : Nat) : List Nat :=
  [w / 2 ^ 24 % 256, w / 2 ^ 16 % 256, w / 2 ^ 8 % 256, w % 256]

/-- The 32 digest bytes. -/
def hashBytes (H : Hash8) : List Nat := (hashWords H).flatMap wordBEBytes

/-- Lowercase hex rendering of one byte, as in `format!("{:x}", hash)` which
prints each digest byte as two lowercase hex digits. -/
def byteHexChars (b : Nat) : List Char := [Nat.digitChar (b / 16), Nat.digitChar (b % 16)]

/-- The 64 lowercase hex characters of the SHA-256 digest of a byte message. -/
def sha256HexChars (msg : List Nat) : List Char :=
  (hashBytes (sha256 msg)).flatMap byteHexChars

/-- The machine information collected by `get_machine_id` (host name, OS
version, first CPU brand and frequency, total memory — each already converted
to a string, with `unwrap_or_default`).  Gathering it via sysinfo is external
to the function's logic. -/
structure MachineSnapshot where
  hostname : String
  os_version : String
  cpu_brand : String
  cpu_freq : String
  total_mem : String

/-- The seed string `format!("{}|{}|{}|{}|{}", ..)`. -/
def machine_seed (m : MachineSnapshot) : String :=
  m.hostname ++ "|" ++ m.os_version ++ "|" ++ m.cpu_brand ++ "|" ++
    m.cpu_freq ++ "|" ++ m.total_mem

/-- The UTF-8 bytes of a string (`seed.as_bytes()`). -/
def stringBytes (s : String) : List Nat :=
  s.toUTF8.toList.map (fun b => b.toNat)

/-- main.rs `get_machine_id` as a function of the machine snapshot: the first
16 characters of the lowercase hex SHA-256 digest of the seed (the byte slice
`[..16]` is a character slice here since hex digits are ASCII).  The source
always returns `Ok`, so the `Result` wrapper is omitted. -/
def get_machine_id (m : MachineSnapshot) : String :=
  String.mk ((sha256HexChars (stringBytes (machine_seed m))).take 16)

/-! Predicates used in the claim statements. -/

/-- An attempt whose response is HTTP 500. -/
def returns500 (a : Attempt) : Prop :=
  ∃ resp, a.net = .ok resp ∧ resp.status = 500

/-- An attempt the retry loop continues past: a transport error or a
non-success status. -/
def attemptRetries (a : Attempt) : Prop :=
  (∃ e, a.net = .error e) ∨
  (∃ resp, a.net = .ok resp ∧ statusIsSuccess resp.status = false)

/-- An attempt with a successful status whose local file handling fails:
either `File::create` fails, or a chunk `write_all` fails (the `writeFail`
constructor of `runBody` arises exactly from the write-error branch). -/
def attemptLocalIOFailure (a : Attempt) (msg : String) : Prop :=
  ∃ resp, a.net = .ok resp ∧ statusIsSuccess resp.status = true ∧
    ((∃ e, resp.createErr = some e ∧ msg = "创建文件失败: " ++ e) ∨
     (resp.createErr = none ∧ runBody resp.body 0 = .writeFail msg))

/-- A row one of whose three blobs does not deserialize. -/
def corruptRow (r : Row) : Prop :=
  decodeConfig r.config_json = none ∨ decodeItemList r.items_json = none ∨
    decodeResultList r.results_json = none

/-- The ids selected for deletion by `cleanup_old_tasks`. -/
def deletedIds (s : DbState) (k : Int) : List String :=
  ((sortedRows s).drop k.toNat).map (fun r => r.id)

/-- The sixteen lowercase hex digits. -/
def hexLowerChars : List Char := "0123456789abcdef".data

/-! Concrete sample inputs used by witnesses and counterexamples. -/

/-- A script whose every attempt yields HTTP 500. -/
def env500 : Nat → Attempt := fun _ =>
  { net := .ok { status := 500, reason := some "Internal Server Error",
                 contentLength := 0, createErr := none, body := [] } }

/-- A script whose first attempt succeeds with status 200 but whose body read
fails mid-transfer after one chunk. -/
def envReadErr : Nat → Attempt := fun _ =>
  { net := .ok { status := 200, reason := some "OK", contentLength := 10,
                 createErr := none,
                 body := [.chunk 4 none, .readErr "connection reset by peer"] } }

/-- A script with one retryable attempt (HTTP 503) followed by an attempt
whose `File::create` fails. -/
def envCreateFail : Nat → Attempt := fun i =>
  if i = 0 then
    { net := .ok { status := 503, reason := some "Service Unavailable",
                   contentLength := 0, createErr := none, body := [] } }
  else
    { net := .ok { status := 200, reason := some "OK", contentLength := 5,
                   createErr := some "Permission denied (os error 13)",
                   body := [] } }

/-- A sample machine snapshot. -/
def snapSample : MachineSnapshot :=
  { hostname := "host", os_version := "Linux 6.1", cpu_brand := "TestCPU",
    cpu_freq := "2400", total_mem := "8192" }

/-- A sample generation config. -/
def configSample : BatchTaskConfig :=
  ⟨"gpt-image-1", "openai", 2, 3, 500, true, "1:1", "1024x1024", "high",
   some 1, none⟩

/-- A sample debug log entry with a structured payload. -/
def logSample : DebugLog :=
  ⟨"log-1", "item-1", "2024-05-01T10:00:00Z", "request",
   Json.obj [("prompt", Json.str "a cat")], some 120⟩

/-- A sample task item carrying a debug log. -/
def itemSample : TaskItem :=
  ⟨"item-1", "a cat", none, some "mask.png", 0, "completed", 1,
   "2024-05-01T09:59:00Z", some "2024-05-01T10:00:02Z", none, some [logSample]⟩

/-- A sample task result. -/
def resultSample : TaskResult :=
  ⟨"res-1", "item-1", "https://example.com/cat.png", some "/downloads/cat.png",
   true, "2024-05-01T10:00:03Z", some 3000⟩

/-- A sample batch task with nested items, results and debug logs. -/
def taskSample : BatchTask :=
  ⟨"task-1", "cats", "generate", "completed", 100, 1, 1, 0,
   "2024-05-01T09:58:00Z", some "2024-05-01T09:59:00Z",
   some "2024-05-01T10:00:05Z", configSample, [itemSample], [resultSample],
   none⟩

/-- A second sample batch task, created later than `taskSample`. -/
def taskSample2 : BatchTask :=
  ⟨"task-2", "dogs", "generate", "pending", 0, 1, 0, 0,
   "2024-06-01T00:00:00Z", none, none, configSample, [], [], some "boom"⟩

/-- Sample rows with distinct ids and distinct creation times. -/
def rowA : Row :=
  ⟨"a", "task a", "generate", "completed", 100, 1, 1, 0, "2024-03-01", none,
   none, .null, .arr [], .arr [], none⟩

/-- Second sample row. -/
def rowB : Row :=
  ⟨"b", "task b", "generate", "completed", 100, 1, 1, 0, "2024-02-01", none,
   none, .null, .arr [], .arr [], none⟩

/-- Third sample row. -/
def rowC : Row :=
  ⟨"c", "task c", "generate", "running", 50, 2, 1, 0, "2024-01-01", none,
   none, .null, .arr [], .arr [], none⟩

/-- A sample table with three rows, unsorted. -/
def dbSample : DbState := [rowB, rowC, rowA]

/-- A row whose `config_json` blob is not an object. -/
def corruptRowSample : Row :=
  ⟨"z", "bad", "generate", "pending", 0, 0, 0, 0, "2024-04-01", none, none,
   .null, .arr [], .arr [], none⟩

/-! Round-trip lemmas: serde's derived deserialization inverts the derived
serialization. -/

/-- Elementwise round trip lifts to `Vec`s. -/
theorem decodeList_map_of_eq {α : Type} (f : Json → Option α) (g : α → Json)
    (h : ∀ x, f (g x) = some x) (xs : List α) :
    decodeList f (xs.map g) = some xs := by
  induction xs with
  | nil => rfl
  | cons x xs ih => simp [decodeList, h, ih]

/-- Round trip for `BatchTaskConfig`. -/
theorem decodeConfig_encode (c : BatchTaskConfig) :
    decodeConfig (encodeConfig c) = some c := by
  rcases c with ⟨m, mt, cl, ra, rd, ad, ar, sz, q, gc, am⟩
  cases gc <;> cases am <;> rfl

/-- Round trip for `DebugLog`. -/
theorem decodeLog_encode (d : DebugLog) : decodeLog (encodeLog d) = some d := by
  rcases d with ⟨i, ti, ts, ty, da, du⟩
  cases du <;> rfl

/-- Round trip for `Vec<DebugLog>`. -/
theorem decodeLogList_encode (ls : List DebugLog) :
    decodeLogList (.arr (ls.map encodeLog)) = some ls := by
  simp [decodeLogList, decodeList_map_of_eq _ _ decodeLog_encode]

/-- Round trip for `TaskItem`. -/
theorem decodeItem_encode (it : TaskItem) : decodeItem (encodeItem it) = some it := by
  rcases it with ⟨i, p, si, mk, pr, st, ac, ca, pa, er, dl⟩
  cases si <;> cases mk <;> cases pa <;> cases er <;> cases dl <;>
    simp [decodeItem, encodeItem, reqField, optField, getField, asStr, asNum,
      decodeLogList_encode, encodeOpt]

/-- Round trip for `TaskResult`. -/
theorem decodeResult_encode (r : TaskResult) :
    decodeResult (encodeResult r) = some r := by
  rcases r with ⟨i, ti, iu, lp, dl, ca, dm⟩
  cases lp <;> cases dm <;> rfl

/-- Round trip for a whole row: reading back the row written for `t` yields
`t` itself. -/
theorem decodeRow_rowOfTask (t : BatchTask) : decodeRow (rowOfTask t) = .ok t := by
  simp [decodeRow, rowOfTask, decodeConfig_encode, decodeItemList, decodeResultList,
    decodeList_map_of_eq _ _ decodeItem_encode, decodeList_map_of_eq _ _ decodeResult_encode]

/-! Structural lemmas about the bulk row decode. -/

/-- A successful bulk decode decodes the rows elementwise, in order. -/
theorem decodeRows_ok_forall2 : ∀ {rs : List Row} {l : List BatchTask},
    decodeRows rs = .ok l → List.Forall₂ (fun r t => decodeRow r = .ok t) rs l := by
  intro rs
  induction rs with
  | nil => intro l h; simp [decodeRows] at h; subst h; constructor
  | cons r rs ih =>
    intro l h
    cases hr : decodeRow r with
    | error e => simp [decodeRows, hr] at h
    | ok t =>
      cases hrs : decodeRows rs with
      | error e => simp [decodeRows, hr, hrs] at h
      | ok ts =>
        simp [decodeRows, hr, hrs] at h
        subst h
        exact List.Forall₂.cons hr (ih hrs)

/-- A successfully decoded task keeps its row's id and creation time. -/
theorem decodeRow_ok_fields {r : Row} {t : BatchTask} (h : decodeRow r = .ok t) :
    t.id = r.id ∧ t.created_at = r.created_at := by
  unfold decodeRow at h
  split at h
  · injection h with h
    subst h
    exact ⟨rfl, rfl⟩
  · exact Except.noConfusion h

/-- Every element of the right list of a `Forall₂` has a partner on the left. -/
theorem forall2_mem_right {R : α → β → Prop} : ∀ {l₁ : List α} {l₂ : List β},
    List.Forall₂ R l₁ l₂ → ∀ {b}, b ∈ l₂ → ∃ a ∈ l₁, R a b := by
  intro l₁ l₂ h
  induction h with
  | nil => intro b hb; cases hb
  | cons hr _ ih =>
    intro b hb
    rcases List.mem_cons.1 hb with rfl | hb
    · exact ⟨_, List.mem_cons_self _ _, hr⟩
    · rcases ih hb with ⟨a, ha, hab⟩
      exact ⟨a, List.mem_cons_of_mem _ ha, hab⟩

/-- Every element of the left list of a `Forall₂` has a partner on the right. -/
theorem forall2_mem_left {R : α → β → Prop} : ∀ {l₁ : List α} {l₂ : List β},
    List.Forall₂ R l₁ l₂ → ∀ {a}, a ∈ l₁ → ∃ b ∈ l₂, R a b := by
  intro l₁ l₂ h
  induction h with
  | nil => intro a ha; cases ha
  | cons hr _ ih =>
    intro a ha
    rcases List.mem_cons.1 ha with rfl | ha
    · exact ⟨_, List.mem_cons_self _ _, hr⟩
    · rcases ih ha with ⟨b, hb, hab⟩
      exact ⟨b, List.mem_cons_of_mem _ hb, hab⟩

/-- Transfer of a `Pairwise` property across a `Forall₂`. -/
theorem forall2_pairwise {R : α → β → Prop} {P : α → α → Prop} {Q : β → β → Prop}
    (hPQ : ∀ a b a' b', R a b → R a' b' → P a a' → Q b b') :
    ∀ {l₁ : List α} {l₂ : List β}, List.Forall₂ R l₁ l₂ →
      List.Pairwise P l₁ → List.Pairwise Q l₂ := by
  intro l₁ l₂ h
  induction h with
  | nil => intro; constructor
  | @cons a b l₁ l₂ hr htail ih =>
    intro hp
    rcases List.pairwise_cons.1 hp with ⟨hhead, htl⟩
    refine List.pairwise_cons.2 ⟨?_, ih htl⟩
    intro b' hb'
    rcases forall2_mem_right htail hb' with ⟨a', ha', hr'⟩
    exact hPQ a b a' b' hr hr' (hhead a' ha')

/-- Transfer of an element count across a `Forall₂`. -/
theorem forall2_countP {R : α → β → Prop} {p : α → Bool} {q : β → Bool}
    (hpq : ∀ a b, R a b → p a = q b) :
    ∀ {l₁ : List α} {l₂ : List β}, List.Forall₂ R l₁ l₂ →
      l₁.countP p = l₂.countP q := by
  intro l₁ l₂ h
  induction h with
  | nil => rfl
  | @cons a b l₁ l₂ hr _ ih =>
    simp [List.countP_cons, ih, hpq a b hr]

/-- A row that fails to decode makes the whole bulk decode fail. -/
theorem decodeRows_error_of_mem {r : Row} {e0 : String} : ∀ {rs : List Row},
    r ∈ rs → decodeRow r = .error e0 → ∃ e, decodeRows rs = .error e := by
  intro rs
  induction rs with
  | nil => intro h; cases h
  | cons r' rs ih =>
    intro hmem hr
    cases hr' : decodeRow r' with
    | error e => exact ⟨e, by simp [decodeRows, hr']⟩
    | ok t =>
      rcases List.mem_cons.1 hmem with rfl | hmem
      · rw [hr'] at hr; cases hr
      · rcases ih hmem hr with ⟨e, he⟩
        exact ⟨e, by simp [decodeRows, hr', he]⟩

/-- A member row of a successful bulk decode contributes its decoded task. -/
theorem decodeRows_ok_of_mem {rs : List Row} {l : List BatchTask} {r : Row}
    (h : decodeRows rs = .ok l) (hr : r ∈ rs) :
    ∃ t ∈ l, decodeRow r = .ok t :=
  forall2_mem_left (decodeRows_ok_forall2 h) hr

/-! Lemmas about the hex rendering of the digest. -/

/-- A digit below 16 renders to a lowercase hex character. -/
theorem digitChar_mem_hex {n : Nat} (h : n < 16) :
    Nat.digitChar n ∈ hexLowerChars := by
  interval_cases n <;> decide

/-- Every digest byte is below 256. -/
theorem hashBytes_lt (H : Hash8) : ∀ b ∈ hashBytes H, b < 256 := by
  intro b hb
  simp [hashBytes, hashWords, wordBEBytes] at hb
  rcases hb with ⟨w, hw, rfl | rfl | rfl | rfl⟩ <;> omega

/-- Every character of the hex digest is a lowercase hex digit. -/
theorem sha256HexChars_hex (msg : List Nat) :
    ∀ c ∈ sha256HexChars msg, c ∈ hexLowerChars := by
  intro c hc
  simp only [sha256HexChars, List.mem_flatMap] at hc
  rcases hc with ⟨b, hb, hc⟩
  have hblt : b < 256 := hashBytes_lt _ b hb
  simp [byteHexChars] at hc
  rcases hc with rfl | rfl
  · exact digitChar_mem_hex (by omega)
  · exact digitChar_mem_hex (by omega)

/-- FIPS 180-4 test vector: SHA-256 of the empty message. -/
example : String.mk (sha256HexChars []) =
    "e3b0c44298fc1c149afbf4c8996fb92427ae41e4649b934ca495991b7852b855" := by
  rfl

/-- FIPS 180-4 test vector: SHA-256 of "abc" (its ASCII bytes). -/
example : String.mk (sha256HexChars [0x61, 0x62, 0x63]) =
    "ba7816bf8f01cfea414140de5dae2223b00361a396177a9cb410ff61f20015ad" := by
  rfl

set_option maxRecDepth 8192 in
/-- FIPS 180-4 test vector: SHA-256 of a two-block message (the ASCII bytes
of "abcdbcdecdefdefgefghfghighijhijkijkljklmklmnlmnomnopnopq"). -/
example : String.mk (sha256HexChars
      [0x61, 0x62, 0x63, 0x64, 0x62, 0x63, 0x64, 0x65, 0x63, 0x64, 0x65, 0x66,
       0x64, 0x65, 0x66, 0x67, 0x65, 0x66, 0x67, 0x68, 0x66, 0x67, 0x68, 0x69,
       0x67, 0x68, 0x69, 0x6a, 0x68, 0x69, 0x6a, 0x6b, 0x69, 0x6a, 0x6b, 0x6c,
       0x6a, 0x6b, 0x6c, 0x6d, 0x6b, 0x6c, 0x6d, 0x6e, 0x6c, 0x6d, 0x6e, 0x6f,
       0x6d, 0x6e, 0x6f, 0x70, 0x6e, 0x6f, 0x70, 0x71]) =
    "248d6a61d20638b8e5c026930c3e6039a33ce45964ff2167f6ecedd419db06c1" := by
  rfl

/-! Lemmas about the retry loop. -/

/-- A local I/O failure at the current attempt ends the whole download with
that error, immediately. -/
theorem downloadGo_localFail {env : Nat → Attempt} {p msg : String} {i rem : Nat}
    {lastErr : Option String} {sleeps : List Nat}
    (hf : attemptLocalIOFailure (env i) msg) :
    downloadGo env p (rem + 1) i lastErr sleeps =
      { result := .error msg, sleeps := sleeps, attemptsMade := i + 1 } := by
  obtain ⟨resp, hnet, hst, hcase⟩ := hf
  rcases hcase with ⟨e, hce, rfl⟩ | ⟨hce, hbody⟩
  · simp [downloadGo, hnet, hst, hce]
  · simp [downloadGo, hnet, hst, hce, hbody]

/-- A retryable attempt passes control to the next loop iteration. -/
theorem downloadGo_retry {env : Nat → Attempt} {p : String} {i rem : Nat}
    {lastErr : Option String} {sleeps : List Nat}
    (hr : attemptRetries (env i)) :
    ∃ le sl, downloadGo env p (rem + 1) i lastErr sleeps =
      downloadGo env p rem (i + 1) le sl := by
  rcases hr with ⟨e, hnet⟩ | ⟨resp, hnet, hst⟩
  · exact ⟨some ("请求失败: " ++ e), sleeps ++ [300 * (i + 1)],
      by simp [downloadGo, hnet]⟩
  · exact ⟨some ("HTTP " ++ statusDisplay resp), sleeps,
      by simp [downloadGo, hnet, hst]⟩

/-! Lemmas about the store operations. -/

/-- Upserting the same task twice leaves the table literally unchanged. -/
theorem save_twice (s : DbState) (t : BatchTask) :
    save_batch_task (save_batch_task s t) t = save_batch_task s t := by
  unfold save_batch_task
  rw [List.filter_append, List.filter_filter]
  have hrow : (fun r => !(r.id == t.id)) (rowOfTask t) = false := by
    simp [rowOfTask]
  simp [hrow, List.filter_cons, List.filter_nil]

/-- The count returned by the cleanup is the number of selected ids. -/
theorem cleanup_fst (s : DbState) (k : Int) :
    (cleanup_old_tasks s k).1 = ((deletedIds s k).length : Int) := by
  dsimp only [cleanup_old_tasks, deletedIds]
  split <;> rfl

/-- The state left by the cleanup is the filter by the selected ids (also when
the guard skips the DELETE because nothing was selected). -/
theorem cleanup_snd (s : DbState) (k : Int) :
    (cleanup_old_tasks s k).2 =
      s.filter (fun r => !((deletedIds s k).contains r.id)) := by
  dsimp only [cleanup_old_tasks, deletedIds]
  split
  · rfl
  · rename_i hcount
    have hnil : ((sortedRows s).drop k.toNat).map (fun r => r.id) = [] := by
      have : (((sortedRows s).drop k.toNat).map (fun r => r.id)).length = 0 := by
        omega
      exact List.length_eq_zero.1 this
    rw [hnil]
    simp

/-- Filtering out the ids of the `D` suffix keeps exactly the `T` prefix when
ids are globally distinct. -/
theorem filter_not_contains_append {T D : List Row}
    (hnd : ((T ++ D).map (fun r => r.id)).Nodup) :
    (T ++ D).filter (fun r => !((D.map (fun r => r.id)).contains r.id)) = T := by
  rw [List.map_append] at hnd
  rw [List.filter_append]
  have hdisj := (List.nodup_append.1 hnd).2.2
  have hT : T.filter (fun r => !((D.map (fun r => r.id)).contains r.id)) = T := by
    rw [List.filter_eq_self]
    intro r hr
    have hmem : r.id ∈ T.map (fun r => r.id) := List.mem_map_of_mem _ hr
    have hnot : r.id ∉ D.map (fun r => r.id) := fun hd => hdisj hmem hd
    simpa using hnot
  have hD : D.filter (fun r => !((D.map (fun r => r.id)).contains r.id)) = [] := by
    rw [List.filter_eq_nil_iff]
    intro r hr
    have hmem : r.id ∈ D.map (fun r => r.id) := List.mem_map_of_mem _ hr
    simp [hmem]
  rw [hT, hD, List.append_nil]

/-- A corrupt row fails to decode. -/
theorem decodeRow_error_of_corrupt {r : Row} (h : corruptRow r) :
    ∃ e0, decodeRow r = .error e0 := by
  unfold decodeRow
  split
  · rename_i config items results heq
    exfalso
    rcases h with h | h | h <;> simp_all
  · exact ⟨_, rfl⟩

/-! The claims. -/

/-- Claim C1 counterexample: with every attempt answering HTTP 500 the retry
loop performs no sleep at all — in particular not the claimed 300ms and 600ms
backoff sleeps (the `thread::sleep` sits only in the transport-error branch,
the non-success-status branch `continue`s without sleeping). -/
theorem C1_counterexample :
    (download_file env500 "/downloads/a.png").sleeps = [] ∧
    (download_file env500 "/downloads/a.png").sleeps ≠ [300, 600] :=
  ⟨rfl, by decide⟩

/-- Claim C1, amended: when every attempt answers HTTP 500, `download_file`
makes exactly 3 attempts with no sleep between them and fails with a message
containing "500". -/
theorem C1_http500_three_attempts (env : Nat → Attempt) (p : String)
    (h : ∀ i, i < 3 → returns500 (env i)) :
    (download_file env p).attemptsMade = 3 ∧
    (download_file env p).sleeps = [] ∧
    ∃ e, (download_file env p).result = .error e ∧
      List.IsInfix "500".data e.data := by
  obtain ⟨r0, h0, hs0⟩ := h 0 (by omega)
  obtain ⟨r1, h1, hs1⟩ := h 1 (by omega)
  obtain ⟨r2, h2, hs2⟩ := h 2 (by omega)
  have hd : download_file env p =
      { result := .error ("HTTP " ++ statusDisplay r2), sleeps := [],
        attemptsMade := 3 } := by
    simp [download_file, downloadGo, h0, h1, h2, hs0, hs1, hs2, statusIsSuccess]
  refine ⟨by rw [hd], by rw [hd], "HTTP " ++ statusDisplay r2, by rw [hd], ?_⟩
  refine ⟨"HTTP ".data, (" " ++ r2.reason.getD "<unknown status code>").data, ?_⟩
  show "HTTP ".data ++ "500".data ++
        (" " ++ r2.reason.getD "<unknown status code>").data
      = ("HTTP " ++ statusDisplay r2).data
  simp [statusDisplay, hs2]
  rfl

/-- Claim C1 witness: the amended claim at the concrete all-500 script. -/
theorem C1_witness :
    (∀ i, i < 3 → returns500 (env500 i)) ∧
    ((download_file env500 "/downloads/a.png").attemptsMade = 3 ∧
     (download_file env500 "/downloads/a.png").sleeps = [] ∧
     ∃ e, (download_file env500 "/downloads/a.png").result = .error e ∧
       List.IsInfix "500".data e.data) := by
  have h : ∀ i, i < 3 → returns500 (env500 i) := fun i _ => ⟨_, rfl, rfl⟩
  exact ⟨h, C1_http500_three_attempts env500 "/downloads/a.png" h⟩

/-- Claim C2: contrary to the claim — and to the spec's stated intent — a
mid-stream read error after a successful status does not surface an error:
the loop records it in `last_err`, breaks, and the function returns the
destination path as success (silent truncation after 4 of 10 bytes here). -/
theorem C2_read_error_reported_success :
    (download_file envReadErr "/downloads/f.png").result = .ok "/downloads/f.png" ∧
    (download_file envReadErr "/downloads/f.png").attemptsMade = 1 :=
  ⟨rfl, rfl⟩

/-- Claim C3: when every attempt before `i` is retryable and attempt `i` has
a successful status but local file creation or a chunk write fails with
message `msg`, the download returns exactly that error and makes no further
attempts. -/
theorem C3_local_io_error_immediate (env : Nat → Attempt) (p : String) (i : Nat)
    (msg : String) (hi : i < 3) (hr : ∀ j, j < i → attemptRetries (env j))
    (hf : attemptLocalIOFailure (env i) msg) :
    (download_file env p).result = .error msg ∧
    (download_file env p).attemptsMade = i + 1 := by
  unfold download_file
  interval_cases i
  · rw [show (3 : Nat) = 2 + 1 from rfl, downloadGo_localFail hf]
    exact ⟨rfl, rfl⟩
  · obtain ⟨le, sl, hstep⟩ :=
      @downloadGo_retry env p 0 2 none [] (hr 0 (by omega))
    rw [show (3 : Nat) = 2 + 1 from rfl, hstep,
      show (2 : Nat) = 1 + 1 from rfl, downloadGo_localFail hf]
    exact ⟨rfl, rfl⟩
  · obtain ⟨le, sl, hstep⟩ :=
      @downloadGo_retry env p 0 2 none [] (hr 0 (by omega))
    obtain ⟨le', sl', hstep'⟩ :=
      @downloadGo_retry env p 1 1 le sl (hr 1 (by omega))
    rw [show (3 : Nat) = 2 + 1 from rfl, hstep,
      show (2 : Nat) = 1 + 1 from rfl, hstep',
      show (1 : Nat) = 0 + 1 from rfl, downloadGo_localFail hf]
    exact ⟨rfl, rfl⟩

/-- Claim C3 witness: a 503 retry followed by a failing `File::create`. -/
theorem C3_witness :
    ((1 : Nat) < 3 ∧ (∀ j, j < 1 → attemptRetries (envCreateFail j)) ∧
     attemptLocalIOFailure (envCreateFail 1)
       ("创建文件失败: " ++ "Permission denied (os error 13)")) ∧
    ((download_file envCreateFail "/downloads/x.png").result =
        .error ("创建文件失败: " ++ "Permission denied (os error 13)") ∧
     (download_file envCreateFail "/downloads/x.png").attemptsMade = 1 + 1) := by
  have hret : ∀ j, j < 1 → attemptRetries (envCreateFail j) := by
    intro j hj
    have hj0 : j = 0 := by omega
    subst hj0
    exact Or.inr ⟨_, rfl, rfl⟩
  have hfail : attemptLocalIOFailure (envCreateFail 1)
      ("创建文件失败: " ++ "Permission denied (os error 13)") :=
    ⟨_, rfl, rfl, Or.inl ⟨_, rfl, rfl⟩⟩
  exact ⟨⟨by omega, hret, hfail⟩,
    C3_local_io_error_immediate envCreateFail "/downloads/x.png" 1 _ (by omega)
      hret hfail⟩

/-- Claim C4: with pairwise-distinct ids (the PRIMARY KEY invariant) and
pairwise-distinct creation times, `cleanup_old_tasks s k` returns
`max (n - k) 0`, leaves exactly the `k` newest rows (a permutation of the
sorted prefix), purges everything when `k = 0`, is a no-op returning 0 when
`k ≥ n`, and the command's default for an absent argument is 100. -/
theorem C4_cleanup_retention (s : DbState) (k : Int)
    (hids : (s.map (fun r => r.id)).Nodup)
    (_hts : (s.map (fun r => r.created_at)).Nodup)
    (hk : 0 ≤ k) :
    (cleanup_old_tasks s k).1 = max ((s.length : Int) - k) 0 ∧
    ((cleanup_old_tasks s k).2).Perm ((sortedRows s).take k.toNat) ∧
    (k = 0 → (cleanup_old_tasks s k).2 = []) ∧
    ((s.length : Int) ≤ k → cleanup_old_tasks s k = (0, s)) ∧
    (∀ s₀, cleanup_old_tasks_cmd s₀ none = cleanup_old_tasks s₀ 100) := by
  have hperm0 : s.Perm (sortedRows s) :=
    (List.perm_insertionSort createdDesc s).symm
  have hlen : (sortedRows s).length = s.length := hperm0.length_eq.symm
  have hnodupSorted : ((sortedRows s).map (fun r => r.id)).Nodup :=
    ((hperm0.map (fun r => r.id)).nodup_iff).1 hids
  have hp2 : ((cleanup_old_tasks s k).2).Perm ((sortedRows s).take k.toNat) := by
    rw [cleanup_snd]
    refine (hperm0.filter _).trans ?_
    have hnd2 : ((((sortedRows s).take k.toNat ++ (sortedRows s).drop k.toNat)).map
        (fun r => r.id)).Nodup := by
      rw [List.take_append_drop]
      exact hnodupSorted
    have heq := filter_not_contains_append hnd2
    rw [List.take_append_drop] at heq
    unfold deletedIds
    rw [heq]
  refine ⟨?_, hp2, ?_, ?_, fun s₀ => rfl⟩
  · rw [cleanup_fst]
    unfold deletedIds
    rw [List.length_map, List.length_drop, hlen]
    omega
  · intro hk0
    subst hk0
    have h0 : (sortedRows s).take ((0 : Int)).toNat = [] := by simp
    rw [h0] at hp2
    exact List.Perm.eq_nil hp2
  · intro hle
    have hm : (sortedRows s).length ≤ k.toNat := by omega
    have hdrop : (sortedRows s).drop k.toNat = [] := List.drop_eq_nil_of_le hm
    dsimp only [cleanup_old_tasks]
    rw [hdrop]
    simp

/-- Claim C4 witness: keeping 1 of 3 sample rows. -/
theorem C4_witness :
    ((dbSample.map (fun r => r.id)).Nodup ∧
     (dbSample.map (fun r => r.created_at)).Nodup ∧ (0 : Int) ≤ 1) ∧
    ((cleanup_old_tasks dbSample 1).1 = max ((dbSample.length : Int) - 1) 0 ∧
     ((cleanup_old_tasks dbSample 1).2).Perm ((sortedRows dbSample).take (1 : Int).toNat) ∧
     ((1 : Int) = 0 → (cleanup_old_tasks dbSample 1).2 = []) ∧
     ((dbSample.length : Int) ≤ 1 → cleanup_old_tasks dbSample 1 = (0, dbSample)) ∧
     (∀ s₀, cleanup_old_tasks_cmd s₀ none = cleanup_old_tasks s₀ 100)) :=
  ⟨⟨by decide, by decide, by norm_num⟩,
   C4_cleanup_retention dbSample 1 (by decide) (by decide) (by norm_num)⟩

/-- Claim C5: upserting the same task twice leaves the table state literally
unchanged, hence the count unchanged, and a successful `get_all` after the
upsert holds exactly one task with that id. -/
theorem C5_upsert_idempotent (s : DbState) (t : BatchTask) :
    save_batch_task (save_batch_task s t) t = save_batch_task s t ∧
    get_task_count (save_batch_task (save_batch_task s t) t) =
      get_task_count (save_batch_task s t) ∧
    ∀ l, get_all_batch_tasks (save_batch_task s t) = .ok l →
      l.countP (fun u => u.id == t.id) = 1 := by
  refine ⟨save_twice s t, by rw [save_twice s t], ?_⟩
  intro l h
  have hf := decodeRows_ok_forall2 h
  have hcount : (sortedRows (save_batch_task s t)).countP (fun r => r.id == t.id) =
      l.countP (fun u => u.id == t.id) := by
    refine forall2_countP ?_ hf
    intro r u hru
    rw [(decodeRow_ok_fields hru).1]
  rw [← hcount]
  have hperm : (sortedRows (save_batch_task s t)).Perm (save_batch_task s t) :=
    List.perm_insertionSort createdDesc _
  rw [hperm.countP_eq]
  unfold save_batch_task
  rw [List.countP_append]
  have h0 : (s.filter (fun r => !(r.id == t.id))).countP (fun r => r.id == t.id) = 0 := by
    rw [List.countP_eq_zero]
    intro r hrmem
    have := List.of_mem_filter hrmem
    simpa using this
  have h1 : ([rowOfTask t]).countP (fun r => r.id == t.id) = 1 := by
    simp [List.countP_cons, rowOfTask]
  omega

/-- Claim C5 witness: upserting the sample task into the empty table. -/
theorem C5_witness :
    (get_all_batch_tasks (save_batch_task [] taskSample) = .ok [taskSample]) ∧
    [taskSample].countP (fun u => u.id == taskSample.id) = 1 := by
  have hok : get_all_batch_tasks (save_batch_task [] taskSample) =
      .ok [taskSample] := by rfl
  exact ⟨hok, (C5_upsert_idempotent [] taskSample).2.2 [taskSample] hok⟩

/-- Claim C6: after an upsert, a successful `get_all` holds a task whose id,
config, items and results are value-equal to the original (lists equal, so
order preserved). -/
theorem C6_round_trip (s : DbState) (t : BatchTask) (l : List BatchTask)
    (h : get_all_batch_tasks (save_batch_task s t) = .ok l) :
    ∃ t' ∈ l, t'.id = t.id ∧ t'.config = t.config ∧
      t'.items = t.items ∧ t'.results = t.results := by
  have hmem : rowOfTask t ∈ sortedRows (save_batch_task s t) := by
    unfold sortedRows
    rw [List.mem_insertionSort]
    exact List.mem_append_right _ (List.mem_singleton.2 rfl)
  obtain ⟨t', ht'l, ht'⟩ := decodeRows_ok_of_mem h hmem
  rw [decodeRow_rowOfTask] at ht'
  injection ht' with ht'
  subst ht'
  exact ⟨t, ht'l, rfl, rfl, rfl, rfl⟩

/-- Claim C6 witness: the sample task with nested items, results and debug
logs round-trips through the store. -/
theorem C6_witness :
    (get_all_batch_tasks (save_batch_task [] taskSample) = .ok [taskSample]) ∧
    ∃ t' ∈ [taskSample], t'.id = taskSample.id ∧ t'.config = taskSample.config ∧
      t'.items = taskSample.items ∧ t'.results = taskSample.results := by
  have hok : get_all_batch_tasks (save_batch_task [] taskSample) =
      .ok [taskSample] := by rfl
  exact ⟨hok, C6_round_trip [] taskSample [taskSample] hok⟩

/-- Claim C7: a successful `get_all` returns the decodes of all stored rows
(elementwise along a permutation of the table), ordered by creation time
descending. -/
theorem C7_get_all_newest_first (s : DbState) (l : List BatchTask)
    (h : get_all_batch_tasks s = .ok l) :
    List.Pairwise (fun a b => b.created_at ≤ a.created_at) l ∧
    ∃ s', s'.Perm s ∧ List.Forall₂ (fun r u => decodeRow r = .ok u) s' l := by
  have hf := decodeRows_ok_forall2 h
  constructor
  · refine forall2_pairwise ?_ hf (List.sorted_insertionSort createdDesc s)
    intro r u r' u' hru hru' hP
    rw [(decodeRow_ok_fields hru).2, (decodeRow_ok_fields hru').2]
    exact hP
  · exact ⟨sortedRows s, List.perm_insertionSort createdDesc s, hf⟩

/-- Claim C7 witness: two sample tasks come back newest first. -/
theorem C7_witness :
    (get_all_batch_tasks (save_batch_task (save_batch_task [] taskSample) taskSample2) =
      .ok [taskSample2, taskSample]) ∧
    (List.Pairwise (fun a b => b.created_at ≤ a.created_at)
        [taskSample2, taskSample] ∧
     ∃ s', s'.Perm (save_batch_task (save_batch_task [] taskSample) taskSample2) ∧
       List.Forall₂ (fun r u => decodeRow r = .ok u) s' [taskSample2, taskSample]) := by
  have hcmp : ¬ createdDesc (rowOfTask taskSample) (rowOfTask taskSample2) := by
    show ¬ ((rowOfTask taskSample2).created_at ≤ (rowOfTask taskSample).created_at)
    rw [String.le_iff_toList_le]
    decide
  have hsort : sortedRows (save_batch_task (save_batch_task [] taskSample) taskSample2) =
      [rowOfTask taskSample2, rowOfTask taskSample] := by
    show sortedRows [rowOfTask taskSample, rowOfTask taskSample2] = _
    simp [sortedRows, List.insertionSort, List.orderedInsert, hcmp]
  have hok : get_all_batch_tasks
      (save_batch_task (save_batch_task [] taskSample) taskSample2) =
      .ok [taskSample2, taskSample] := by
    unfold get_all_batch_tasks
    rw [hsort]
    rfl
  exact ⟨hok, C7_get_all_newest_first _ _ hok⟩

/-- Claim C8: a stored row with a corrupt blob makes that `get_all` call
return a retrieval error — it is not silently skipped. -/
theorem C8_corrupt_blob_fails_get_all (s : DbState) (r : Row)
    (hr : r ∈ s) (hc : corruptRow r) :
    ∃ e, get_all_batch_tasks s = .error e := by
  obtain ⟨e0, he0⟩ := decodeRow_error_of_corrupt hc
  have hmem : r ∈ sortedRows s := by
    unfold sortedRows
    rw [List.mem_insertionSort]
    exact hr
  exact decodeRows_error_of_mem hmem he0

/-- Claim C8 witness: a table holding one corrupt row. -/
theorem C8_witness :
    (corruptRowSample ∈ [corruptRowSample] ∧ corruptRow corruptRowSample) ∧
    ∃ e, get_all_batch_tasks [corruptRowSample] = .error e := by
  have hmem : corruptRowSample ∈ [corruptRowSample] := List.mem_singleton.2 rfl
  have hc : corruptRow corruptRowSample := Or.inl rfl
  exact ⟨⟨hmem, hc⟩, C8_corrupt_blob_fails_get_all _ _ hmem hc⟩

/-- Claim C9: `get_machine_id` is a function of the machine snapshot (equal
snapshots give equal ids), returns exactly 16 characters, all lowercase hex,
and is by construction the 16-character truncation of the lowercase hex
SHA-256 digest of the seed. -/
theorem C9_machine_id_stable_16_hex (s₁ s₂ : MachineSnapshot) (h : s₁ = s₂) :
    get_machine_id s₁ = get_machine_id s₂ ∧
    (get_machine_id s₁).length = 16 ∧
    (∀ c ∈ (get_machine_id s₁).data, c ∈ hexLowerChars) ∧
    get_machine_id s₁ =
      String.mk ((sha256HexChars (stringBytes (machine_seed s₁))).take 16) := by
  subst h
  refine ⟨rfl, rfl, ?_, rfl⟩
  intro c hc
  exact sha256HexChars_hex _ c (List.mem_of_mem_take hc)

/-- Claim C9 witness: the sample snapshot. -/
theorem C9_witness :
    snapSample = snapSample ∧
    (get_machine_id snapSample = get_machine_id snapSample ∧
     (get_machine_id snapSample).length = 16 ∧
     (∀ c ∈ (get_machine_id snapSample).data, c ∈ hexLowerChars) ∧
     get_machine_id snapSample =
       String.mk ((sha256HexChars (stringBytes (machine_seed snapSample))).take 16)) :=
  ⟨rfl, C9_machine_id_stable_16_hex snapSample snapSample rfl⟩

/-- Claim C10: passing `Some("")` as the target directory resolves to the
platform download directory joined with the filename, exactly as passing
`None`. -/
theorem C10_empty_dir_same_as_absent (downloadDir filename : String) :
    resolved_save_path (some "") downloadDir filename =
      resolved_save_path none downloadDir filename ∧
    resolved_save_path none downloadDir filename = pathJoin downloadDir filename :=
  ⟨rfl, rfl⟩

end MagicImage
